import Mathlib

/-!
# PomodoroPal background timer controller — verification development

Shallow embedding of `src/extension/background/background.js`:
the timer state machine (start/pause/reset/switch-mode/tick/resume/complete),
the message dispatcher, and the site-blocking policy engine.

JavaScript numbers that can become `NaN` (via an unguarded `TIMER_CONFIG`
lookup returning `undefined`) are modelled by `JSNum`.  Timestamps
(`Date.now()`) are epoch milliseconds, modelled as `Nat`.  Side effects
(alarms, storage writes, backend session posts, notifications, badge and
blocking-rule updates) are recorded as an explicit `Effect` list, in the
order the source performs them.  Where the source file declares a function
twice (`startTimer`, `pauseTimer`, `completeTimer`), JavaScript hoisting
makes the later declaration the live one; the embedding follows the later
declarations (the ones that call `updateBlockingRules`).
-/

/-- A JavaScript number as used by the timer: an integer or `NaN`
(produced e.g. by `undefined * 60`). -/
inductive JSNum where
  | num (n : Int) : JSNum
  | nan : JSNum
  deriving DecidableEq, Repr

/-- JS subtraction: `NaN` propagates. -/
def JSNum.sub : JSNum → JSNum → JSNum
  | JSNum.num a, JSNum.num b => JSNum.num (a - b)
  | _, _ => JSNum.nan

/-- JS `Math.max(0, x)`: `Math.max(0, NaN) = NaN`. -/
def JSNum.maxZero : JSNum → JSNum
  | JSNum.num a => JSNum.num (max 0 a)
  | JSNum.nan => JSNum.nan

/-- JS comparison `x > 0`: any comparison with `NaN` is false. -/
def JSNum.gtZero : JSNum → Bool
  | JSNum.num a => decide (0 < a)
  | JSNum.nan => false

/-- JS comparison `x <= 0`: any comparison with `NaN` is false. -/
def JSNum.leZero : JSNum → Bool
  | JSNum.num a => decide (a ≤ 0)
  | JSNum.nan => false

/-- JS `x--`: `NaN` propagates. -/
def JSNum.dec : JSNum → JSNum
  | JSNum.num a => JSNum.num (a - 1)
  | JSNum.nan => JSNum.nan

/-- `TIMER_CONFIG` (background.js lines 39–43): minutes per mode.
A lookup at any other key is `undefined`, modelled as `none`. -/
def TIMER_CONFIG (m : String) : Option Int :=
  if m = "pomodoro" then some 25
  else if m = "shortBreak" then some 5
  else if m = "longBreak" then some 15
  else none

/-- A mode string is recognized iff it is a key of `TIMER_CONFIG`. -/
def validMode (m : String) : Bool :=
  (TIMER_CONFIG m).isSome

/-- The JS value `TIMER_CONFIG[m] * 60`: seconds for a recognized mode,
`NaN` (from `undefined * 60`) otherwise. -/
def nominalJS (m : String) : JSNum :=
  match TIMER_CONFIG m with
  | some k => JSNum.num (k * 60)
  | none => JSNum.nan

/-- Nominal duration in seconds as an integer (only meaningful for
recognized modes, where the config lookup is `some`). -/
def nominalSeconds (m : String) : Int :=
  (TIMER_CONFIG m).getD 0 * 60

/-- JS truthiness of an optional epoch-ms timestamp:
`null` is falsy and so is the number `0`. -/
def truthyOpt : Option Nat → Bool
  | none => false
  | some a => decide (a ≠ 0)

/-- The global `timerState` object (background.js lines 49–55). -/
structure TimerState where
  mode : String
  timeRemaining : JSNum
  isRunning : Bool
  startedAt : Option Nat
  pausedAt : Option Nat
  deriving DecidableEq, Repr

/-- Initial `timerState`: pomodoro mode, full duration, stopped. -/
def initialTimerState : TimerState :=
  { mode := "pomodoro"
    timeRemaining := JSNum.num (25 * 60)
    isRunning := false
    startedAt := none
    pausedAt := none }

/-- The session payload POSTed to the backend.  `duration_minutes` is the
raw `TIMER_CONFIG[mode]` lookup (`none` = `undefined`); timestamps are
epoch ms (`new Date(null)` coerces a null `startedAt` to epoch 0). -/
structure SessionRecord where
  session_type : String
  duration_minutes : Option Int
  completed : Bool
  started_at : Nat
  ended_at : Nat
  deriving DecidableEq, Repr

/-- Observable side effects of the background script, in source order. -/
inductive Effect where
  | alarmCreate : Effect
  | alarmClear : Effect
  | updateBlockingRules : Effect
  | saveState : Effect
  | emitSession (r : SessionRecord) : Effect
  | notify (title message : String) (requireInteraction : Bool) : Effect
  | setBadgeText (t : String) : Effect
  | setBadgeColor (c : String) : Effect
  deriving DecidableEq, Repr

/-- Is this effect a session POST to the backend? -/
def isEmit : Effect → Bool
  | Effect.emitSession _ => true
  | _ => false

/-- Is this effect a user-facing notification? -/
def isNotify : Effect → Bool
  | Effect.notify _ _ _ => true
  | _ => false

/-- `messages[mode] || 'Timer completed!'` in `completeTimer`. -/
def completionMessage (m : String) : String :=
  if m = "pomodoro" then "Work session completed! You deserve a break."
  else if m = "shortBreak" then "Break finished! Ready to focus again?"
  else if m = "longBreak" then "Long break finished! Ready for another session?"
  else "Timer completed!"

/-- `startTimer` (background.js lines 371–384, the live declaration):
no-op while running; else sets `isRunning`, stamps `startedAt = now`,
creates the per-second alarm, recomputes blocking rules, persists. -/
def startTimer (now : Nat) (s : TimerState) : TimerState × List Effect :=
  if s.isRunning then (s, [])
  else
    ({ s with isRunning := true, startedAt := some now },
     [Effect.alarmCreate, Effect.updateBlockingRules, Effect.saveState])

/-- `pauseTimer` (background.js lines 387–400, the live declaration):
no-op while stopped; else clears `isRunning`, stamps `pausedAt = now`,
clears the alarm, recomputes blocking rules, persists.
(`startedAt` is left in place by the source.) -/
def pauseTimer (now : Nat) (s : TimerState) : TimerState × List Effect :=
  if !s.isRunning then (s, [])
  else
    ({ s with isRunning := false, pausedAt := some now },
     [Effect.alarmClear, Effect.updateBlockingRules, Effect.saveState])

/-- `resetTimer` (background.js lines 128–150): if running with a truthy
`startedAt`, first POSTs an incomplete session using the nominal mode
duration; then stops, restores full nominal remaining time, clears both
timestamps, clears the alarm and persists.  It never calls
`updateBlockingRules`. -/
def resetTimer (now : Nat) (s : TimerState) : TimerState × List Effect :=
  let sessionEffs : List Effect :=
    if s.isRunning && truthyOpt s.startedAt then
      [Effect.emitSession
        { session_type := s.mode
          duration_minutes := TIMER_CONFIG s.mode
          completed := false
          started_at := s.startedAt.getD 0
          ended_at := now }]
    else []
  ({ s with isRunning := false
            timeRemaining := nominalJS s.mode
            startedAt := none
            pausedAt := none },
   sessionEffs ++ [Effect.alarmClear, Effect.saveState])

/-- `switchMode` (background.js lines 152–161): no-op while running; else
sets `mode := newMode` and `timeRemaining := TIMER_CONFIG[newMode] * 60`
with no validation of `newMode`, clears both timestamps, persists. -/
def switchMode (newMode : String) (s : TimerState) : TimerState × List Effect :=
  if s.isRunning then (s, [])
  else
    ({ s with mode := newMode
              timeRemaining := nominalJS newMode
              startedAt := none
              pausedAt := none },
     [Effect.saveState])

/-- `completeTimer` (background.js lines 404–452, the live declaration):
POSTs a completed session with the nominal mode duration, stops the timer,
zeroes the countdown, clears the alarm, notifies, clears the badge,
auto-switches pomodoro→shortBreak and anything else→pomodoro, recomputes
blocking rules, persists. -/
def completeTimer (now : Nat) (s : TimerState) : TimerState × List Effect :=
  let record : SessionRecord :=
    { session_type := s.mode
      duration_minutes := TIMER_CONFIG s.mode
      completed := true
      started_at := s.startedAt.getD 0
      ended_at := now }
  let s1 : TimerState := { s with isRunning := false, timeRemaining := JSNum.num 0 }
  let nextMode : String := if s.mode = "pomodoro" then "shortBreak" else "pomodoro"
  let sw := switchMode nextMode s1
  (sw.1,
   Effect.emitSession record ::
   Effect.alarmClear ::
   Effect.notify "PomodoroPal" (completionMessage s.mode) true ::
   Effect.setBadgeText "" ::
   (sw.2 ++ [Effect.updateBlockingRules, Effect.saveState]))

/-- The reconciled remaining time computed inside `resumeTimer`
(background.js lines 166–169):
`Math.max(0, TIMER_CONFIG[mode]*60 − Math.floor((now − startedAt)/1000))`,
with a null `startedAt` coercing to 0 in the subtraction. -/
def reconcileRemaining (now : Nat) (s : TimerState) : JSNum :=
  let elapsed : Int := ((now : Int) - ((s.startedAt.getD 0 : Nat) : Int)).fdiv 1000
  JSNum.maxZero (JSNum.sub (nominalJS s.mode) (JSNum.num elapsed))

/-- `resumeTimer` (background.js lines 163–176): no-op while stopped; else
overwrites `timeRemaining` with the wall-clock reconciled value, then
either re-creates the alarm (if `> 0`) or invokes `completeTimer`. -/
def resumeTimer (now : Nat) (s : TimerState) : TimerState × List Effect :=
  if !s.isRunning then (s, [])
  else
    let s1 : TimerState := { s with timeRemaining := reconcileRemaining now s }
    if s1.timeRemaining.gtZero then (s1, [Effect.alarmCreate])
    else completeTimer now s1

/-- Badge text shown by the tick: `String(Math.ceil(timeRemaining / 60))`
(`String(NaN)` is `"NaN"`).  `Math.ceil (x/60) = -(Math.floor (-x/60))`. -/
def badgeMinutes : JSNum → String
  | JSNum.num x => toString (-((-x).fdiv 60))
  | JSNum.nan => "NaN"

/-- The `chrome.alarms.onAlarm` listener body (background.js lines
179–194), for the `pomodoroTimer` alarm: while running, decrement;
complete at `<= 0`; otherwise show the badge; then persist. -/
def onAlarmTick (now : Nat) (s : TimerState) : TimerState × List Effect :=
  if !s.isRunning then (s, [])
  else
    let s1 : TimerState := { s with timeRemaining := s.timeRemaining.dec }
    if s1.timeRemaining.leZero then
      let c := completeTimer now s1
      (c.1, c.2 ++ [Effect.saveState])
    else
      (s1, [Effect.setBadgeText (badgeMinutes s1.timeRemaining),
            Effect.setBadgeColor "#FF6347",
            Effect.saveState])

/-- The resume branch of the `chrome.runtime.onInstalled` listener
(background.js lines 58–68): after loading the snapshot, if it was
running with a truthy `startedAt`, reconcile via `resumeTimer`. -/
def onInstalledResume (now : Nat) (s : TimerState) : TimerState × List Effect :=
  if s.isRunning && truthyOpt s.startedAt then resumeTimer now s
  else (s, [])

/-- A popup message (`request.action`, with `request.mode` carried for
`SWITCH_MODE`). -/
structure Request where
  action : String
  mode : String
  deriving DecidableEq, Repr

/-- What `sendResponse` receives: the snapshot, or the unknown-action
error object. -/
inductive Response where
  | state (s : TimerState) : Response
  | error (msg : String) : Response
  deriving DecidableEq, Repr

/-- The recognized `request.action` values of the message listener. -/
def knownActions : List String :=
  ["GET_STATE", "START_TIMER", "PAUSE_TIMER", "RESET_TIMER", "SWITCH_MODE"]

/-- The `chrome.runtime.onMessage` listener (background.js lines 71–101):
dispatch on `request.action`, respond with the post-command snapshot, or
with `{error: 'Unknown action'}` for anything else. -/
def handleMessage (now : Nat) (req : Request) (s : TimerState) :
    Response × TimerState × List Effect :=
  if req.action = "GET_STATE" then (Response.state s, s, [])
  else if req.action = "START_TIMER" then
    let r := startTimer now s
    (Response.state r.1, r.1, r.2)
  else if req.action = "PAUSE_TIMER" then
    let r := pauseTimer now s
    (Response.state r.1, r.1, r.2)
  else if req.action = "RESET_TIMER" then
    let r := resetTimer now s
    (Response.state r.1, r.1, r.2)
  else if req.action = "SWITCH_MODE" then
    let r := switchMode req.mode s
    (Response.state r.1, r.1, r.2)
  else (Response.error "Unknown action", s, [])

/-- User configuration read by `updateBlockingRules` from
`chrome.storage.local` (background.js lines 285–295), after defaulting. -/
structure BlockingConfig where
  blockingEnabled : Bool
  blockDuringWork : Bool
  blockedSites : List String
  deriving DecidableEq, Repr

/-- The default `blockedSites` list (background.js lines 288–295). -/
def defaultBlockedSites : List String :=
  ["facebook.com", "x.com", "instagram.com", "youtube.com", "reddit.com", "tiktok.com"]

/-- Defaulting of the stored settings: `blockingEnabled` and
`blockDuringWork` default to `true`, `blockedSites` to the six-site list. -/
def readBlockingConfig (storedEnabled storedDuringWork : Option Bool)
    (storedSites : Option (List String)) : BlockingConfig :=
  { blockingEnabled := storedEnabled.getD true
    blockDuringWork := storedDuringWork.getD true
    blockedSites := storedSites.getD defaultBlockedSites }

/-- The blocking decision (background.js line 298):
`blockingEnabled && timerState.isRunning && (!blockDuringWork || timerState.mode === 'pomodoro')`. -/
def shouldBlock (cfg : BlockingConfig) (s : TimerState) : Bool :=
  cfg.blockingEnabled && s.isRunning && (!cfg.blockDuringWork || s.mode == "pomodoro")

/-- One `chrome.declarativeNetRequest` dynamic rule as built by
`enableBlocking`: a priority-1 main-frame redirect to the local blocked
page. -/
structure DNRRule where
  id : Nat
  priority : Nat
  urlFilter : String
  redirectExtensionPath : String
  resourceTypes : List String
  deriving DecidableEq, Repr

/-- `sites.map((site, index) => ...)` with explicit running index. -/
def mapSitesFrom (f : Nat → String → DNRRule) : Nat → List String → List DNRRule
  | _, [] => []
  | i, site :: rest => f i site :: mapSitesFrom f (i + 1) rest

/-- The subdomain rule for `site` at map index `i`
(background.js lines 311–324): filter `*://*.site/*`. -/
def subdomainRule (i : Nat) (site : String) : DNRRule :=
  { id := i + 1
    priority := 1
    urlFilter := "*://*." ++ site ++ "/*"
    redirectExtensionPath := "/blocked/blocked.html"
    resourceTypes := ["main_frame"] }

/-- The bare-domain rule for `site` at map index `i`
(background.js lines 327–340): filter `*://site/*`, ids offset by the
number of sites. -/
def bareRule (siteCount : Nat) (i : Nat) (site : String) : DNRRule :=
  { id := siteCount + i + 1
    priority := 1
    urlFilter := "*://" ++ site ++ "/*"
    redirectExtensionPath := "/blocked/blocked.html"
    resourceTypes := ["main_frame"] }

/-- `allRules` as assembled by `enableBlocking` (background.js lines
309–342): the subdomain rules followed by the bare-domain rules. -/
def enableBlockingRules (sites : List String) : List DNRRule :=
  mapSitesFrom subdomainRule 0 sites ++ mapSitesFrom (bareRule sites.length) 0 sites

/-- The dynamic rule set installed by `updateBlockingRules` (background.js
lines 284–306): full remove-then-add replacement, so the resulting set is
`allRules` when blocking is on and empty when it is off. -/
def blockingRuleSet (cfg : BlockingConfig) (s : TimerState) : List DNRRule :=
  if shouldBlock cfg s then enableBlockingRules cfg.blockedSites else []

/-- Command alphabet for controller traces: the five popup commands plus
the internal tick and wall-clock reconciliation steps. -/
inductive Cmd where
  | start : Cmd
  | pause : Cmd
  | reset : Cmd
  | switchModeCmd (m : String) : Cmd
  | getState : Cmd
  | tick : Cmd
  | reconcile : Cmd
  deriving DecidableEq, Repr

/-- Apply one command at wall-clock time `now` (ms). -/
def applyCmd (c : Cmd) (now : Nat) (s : TimerState) : TimerState × List Effect :=
  match c with
  | Cmd.start => startTimer now s
  | Cmd.pause => pauseTimer now s
  | Cmd.reset => resetTimer now s
  | Cmd.switchModeCmd m => switchMode m s
  | Cmd.getState => (s, [])
  | Cmd.tick => onAlarmTick now s
  | Cmd.reconcile => resumeTimer now s

/-- Run a timed trace of commands, keeping only the state. -/
def runCmds (s : TimerState) : List (Cmd × Nat) → TimerState
  | [] => s
  | (c, n) :: rest => runCmds (applyCmd c n s).1 rest

/-- A command is in-alphabet when any `SWITCH_MODE` argument is one of the
three recognized modes. -/
def cmdOk : Cmd → Bool
  | Cmd.switchModeCmd m => validMode m
  | _ => true

/-- Trace wellformedness from a time lower bound: wall-clock times are
nondecreasing and mode arguments are recognized. -/
def wfTrace : Nat → List (Cmd × Nat) → Bool
  | _, [] => true
  | t, (c, n) :: rest => decide (t ≤ n) && cmdOk c && wfTrace n rest

/-- A recognized mode is one of the three configured strings. -/
theorem validMode_elim {m : String} (h : validMode m = true) :
    m = "pomodoro" ∨ m = "shortBreak" ∨ m = "longBreak" := by
  by_contra hc
  push_neg at hc
  obtain ⟨h1, h2, h3⟩ := hc
  simp [validMode, TIMER_CONFIG, h1, h2, h3] at h

/-- On recognized modes the JS duration is the integer nominal duration,
and it is positive. -/
theorem nominalJS_of_valid {m : String} (h : validMode m = true) :
    nominalJS m = JSNum.num (nominalSeconds m) ∧ 0 < nominalSeconds m := by
  rcases validMode_elim h with h' | h' | h' <;> subst h' <;> exact ⟨rfl, by decide⟩

/-- An unrecognized mode has no config entry. -/
theorem TIMER_CONFIG_of_invalid {m : String} (h : validMode m = false) :
    TIMER_CONFIG m = none := by
  cases hc : TIMER_CONFIG m with
  | none => rfl
  | some k => simp [validMode, hc] at h

/-- The auto-switch target of `completeTimer` is always recognized. -/
theorem validMode_nextMode (m : String) :
    validMode (if m = "pomodoro" then "shortBreak" else "pomodoro") = true := by
  split <;> decide

/-- The post-state of `completeTimer`: stopped, timestamps cleared, mode
auto-switched, countdown at the new mode's configured value. -/
theorem completeTimer_fst (now : Nat) (s : TimerState) :
    (completeTimer now s).1 =
      { mode := if s.mode = "pomodoro" then "shortBreak" else "pomodoro"
        timeRemaining := nominalJS (if s.mode = "pomodoro" then "shortBreak" else "pomodoro")
        isRunning := false
        startedAt := none
        pausedAt := none } := by
  simp [completeTimer, switchMode]

/-- The effect trace of `completeTimer`. -/
theorem completeTimer_snd (now : Nat) (s : TimerState) :
    (completeTimer now s).2 =
      [Effect.emitSession
         { session_type := s.mode
           duration_minutes := TIMER_CONFIG s.mode
           completed := true
           started_at := s.startedAt.getD 0
           ended_at := now },
       Effect.alarmClear,
       Effect.notify "PomodoroPal" (completionMessage s.mode) true,
       Effect.setBadgeText "",
       Effect.saveState,
       Effect.updateBlockingRules,
       Effect.saveState] := by
  simp [completeTimer, switchMode]

/-- C3 failing input: a running pomodoro snapshot about to be reset. -/
def c3RunState : TimerState :=
  { mode := "pomodoro"
    timeRemaining := JSNum.num 1200
    isRunning := true
    startedAt := some 1000
    pausedAt := none }

/-- C3: `resetTimer` performs no blocking-rule recomputation, although the
other three transitions (start, pause, complete — and hence the tick that
completes) all do: a reset taken while blocking is active leaves the stale
rule set installed. -/
theorem resetTimer_skips_blocking_recompute :
    c3RunState.isRunning = true ∧
    Effect.updateBlockingRules ∉ (resetTimer 2000 c3RunState).2 ∧
    Effect.updateBlockingRules ∈ (startTimer 2000 initialTimerState).2 ∧
    Effect.updateBlockingRules ∈ (pauseTimer 2000 c3RunState).2 ∧
    Effect.updateBlockingRules ∈ (completeTimer 2000 c3RunState).2 := by
  decide

/-- C4 counterexample input: a running snapshot with `startedAt = 5000`. -/
def c4RunState : TimerState :=
  { mode := "pomodoro"
    timeRemaining := JSNum.num 600
    isRunning := true
    startedAt := some 5000
    pausedAt := none }

/-- C4 counterexample: pausing a running snapshot does NOT clear
`startedAt` — the source's `pauseTimer` only sets `isRunning := false` and
`pausedAt`, leaving `startedAt = some 5000` in place. -/
theorem pause_keeps_startedAt_cex :
    c4RunState.isRunning = true ∧
    (pauseTimer 9000 c4RunState).1.startedAt = some 5000 ∧
    (pauseTimer 9000 c4RunState).1.startedAt ≠ none := by
  decide

/-- C4 (amended): `startedAt` is set to `now` exactly when a run begins
via Start (Start while running is a strict no-op), it is cleared by Reset
and by SwitchMode (while stopped), and Pause leaves it unchanged. -/
theorem startedAt_lifecycle (s : TimerState) (m : String) (now : Nat) :
    (s.isRunning = false → (startTimer now s).1.startedAt = some now) ∧
    (s.isRunning = true → (startTimer now s).1 = s) ∧
    (resetTimer now s).1.startedAt = none ∧
    (s.isRunning = false → (switchMode m s).1.startedAt = none) ∧
    (pauseTimer now s).1.startedAt = s.startedAt := by
  refine ⟨fun h => ?_, fun h => ?_, ?_, fun h => ?_, ?_⟩
  · simp [startTimer, h]
  · simp [startTimer, h]
  · simp [resetTimer]
  · simp [switchMode, h]
  · by_cases h : s.isRunning <;> simp [pauseTimer, h]

/-- C4 amended-claim witness at concrete inputs. -/
theorem startedAt_lifecycle_witness :
    initialTimerState.isRunning = false ∧
    (startTimer 42 initialTimerState).1.startedAt = some 42 ∧
    (resetTimer 42 initialTimerState).1.startedAt = none ∧
    (switchMode "shortBreak" initialTimerState).1.startedAt = none ∧
    (pauseTimer 42 initialTimerState).1.startedAt = initialTimerState.startedAt := by
  have h := startedAt_lifecycle initialTimerState "shortBreak" 42
  exact ⟨rfl, h.1 rfl, h.2.2.1, h.2.2.2.1 rfl, h.2.2.2.2⟩

/-- C9: starting from a paused snapshot keeps the partially-consumed
countdown but restamps `startedAt := now`; any later wall-clock
reconciliation therefore computes from the full nominal duration and
yields strictly more than the true remaining time (`r` minus the seconds
elapsed since the restart) whenever the earlier run had consumed time
(`r < nominal`). -/
theorem start_after_pause_overcounts (s : TimerState) (r : Int) (T1 T2 : Nat)
    (hrun : s.isRunning = false) (htr : s.timeRemaining = JSNum.num r)
    (hvm : validMode s.mode = true) (hlt : r < nominalSeconds s.mode) :
    (startTimer T1 s).1.timeRemaining = JSNum.num r ∧
    (startTimer T1 s).1.startedAt = some T1 ∧
    ∃ v : Int, reconcileRemaining T2 (startTimer T1 s).1 = JSNum.num v ∧
      r - ((T2 : Int) - (T1 : Int)).fdiv 1000 < v := by
  obtain ⟨hn, _⟩ := nominalJS_of_valid hvm
  refine ⟨by simp [startTimer, hrun, htr], by simp [startTimer, hrun], ?_⟩
  refine ⟨max 0 (nominalSeconds s.mode - ((T2 : Int) - (T1 : Int)).fdiv 1000), ?_, ?_⟩
  · simp [reconcileRemaining, startTimer, hrun, hn, JSNum.sub, JSNum.maxZero]
  · calc r - ((T2 : Int) - (T1 : Int)).fdiv 1000
        < nominalSeconds s.mode - ((T2 : Int) - (T1 : Int)).fdiv 1000 := by omega
      _ ≤ max 0 (nominalSeconds s.mode - ((T2 : Int) - (T1 : Int)).fdiv 1000) :=
          le_max_right _ _

/-- A pomodoro paused with 600 s remaining (900 s already consumed). -/
def c9PausedState : TimerState :=
  { mode := "pomodoro"
    timeRemaining := JSNum.num 600
    isRunning := false
    startedAt := none
    pausedAt := some 9000 }

/-- C9 witness: the paused pomodoro restarted at t=10000 ms and reconciled
2000 s later reports `max 0 (1500−2000) = 0`, strictly above the true
`600−2000 = −1400`. -/
theorem start_after_pause_overcounts_witness :
    c9PausedState.isRunning = false ∧
    (600 : Int) < nominalSeconds "pomodoro" ∧
    ((startTimer 10000 c9PausedState).1.timeRemaining = JSNum.num 600 ∧
     (startTimer 10000 c9PausedState).1.startedAt = some 10000 ∧
     ∃ v : Int, reconcileRemaining 2010000 (startTimer 10000 c9PausedState).1 = JSNum.num v ∧
       (600 : Int) - ((2010000 : Int) - (10000 : Int)).fdiv 1000 < v) := by
  refine ⟨rfl, by decide, ?_⟩
  exact start_after_pause_overcounts c9PausedState 600 10000 2010000 rfl rfl
    (by decide) (by decide)

/-- C10: `switchMode` validates nothing — on a stopped snapshot any
unrecognized mode string is installed verbatim and the countdown becomes
`undefined * 60 = NaN`, which is no integer at all, so the
`[0, nominal]` integer-range invariant is broken rather than the command
rejecting or no-op'ing. -/
theorem switchMode_unvalidated_nan (s : TimerState) (m : String)
    (hrun : s.isRunning = false) (hm : validMode m = false) :
    (switchMode m s).1.mode = m ∧
    (switchMode m s).1.timeRemaining = JSNum.nan ∧
    ∀ r : Int, (switchMode m s).1.timeRemaining ≠ JSNum.num r := by
  have hc : TIMER_CONFIG m = none := TIMER_CONFIG_of_invalid hm
  refine ⟨by simp [switchMode, hrun], by simp [switchMode, hrun, nominalJS, hc], ?_⟩
  intro r
  simp [switchMode, hrun, nominalJS, hc]

/-- C10 witness: switching the stopped initial snapshot to the
unrecognized string `"focus"`. -/
theorem switchMode_unvalidated_nan_witness :
    initialTimerState.isRunning = false ∧
    validMode "focus" = false ∧
    (switchMode "focus" initialTimerState).1.mode = "focus" ∧
    (switchMode "focus" initialTimerState).1.timeRemaining = JSNum.nan ∧
    ∀ r : Int, (switchMode "focus" initialTimerState).1.timeRemaining ≠ JSNum.num r := by
  have h := switchMode_unvalidated_nan initialTimerState "focus" rfl (by decide)
  exact ⟨rfl, by decide, h.1, h.2.1, h.2.2⟩

/-- Indexed site mapping preserves length. -/
theorem mapSitesFrom_length (f : Nat → String → DNRRule) :
    ∀ (i : Nat) (l : List String), (mapSitesFrom f i l).length = l.length := by
  intro i l
  induction l generalizing i with
  | nil => rfl
  | cons site rest ih => simp [mapSitesFrom, ih]

/-- Every listed site contributes a rule under indexed site mapping. -/
theorem mapSitesFrom_mem (f : Nat → String → DNRRule) (site : String) :
    ∀ (i : Nat) (l : List String), site ∈ l → ∃ j, f j site ∈ mapSitesFrom f i l := by
  intro i l
  induction l generalizing i with
  | nil => intro h; cases h
  | cons hd rest ih =>
    intro h
    rcases List.mem_cons.mp h with h | h
    · exact ⟨i, by rw [h]; exact List.mem_cons_self _ _⟩
    · obtain ⟨j, hj⟩ := ih (i + 1) h
      exact ⟨j, List.mem_cons_of_mem _ hj⟩

/-- C2: the blocking decision is exactly
`blockingEnabled ∧ isRunning ∧ (¬blockDuringWork ∨ mode = pomodoro)`; when
it is false the installed rule set is empty, and when it is true the rule
set holds two main-frame redirect rules per blocked site (an any-subdomain
pattern and a bare-domain pattern, both to the local blocked page). -/
theorem blocking_decision_truth_table (cfg : BlockingConfig) (s : TimerState) :
    (shouldBlock cfg s = true ↔
      (cfg.blockingEnabled = true ∧ s.isRunning = true ∧
        (cfg.blockDuringWork = false ∨ s.mode = "pomodoro"))) ∧
    (shouldBlock cfg s = false → blockingRuleSet cfg s = []) ∧
    (shouldBlock cfg s = true →
      (blockingRuleSet cfg s).length = 2 * cfg.blockedSites.length ∧
      ∀ site ∈ cfg.blockedSites,
        (∃ rule ∈ blockingRuleSet cfg s,
           rule.urlFilter = "*://*." ++ site ++ "/*" ∧
           rule.redirectExtensionPath = "/blocked/blocked.html" ∧
           rule.resourceTypes = ["main_frame"]) ∧
        (∃ rule ∈ blockingRuleSet cfg s,
           rule.urlFilter = "*://" ++ site ++ "/*" ∧
           rule.redirectExtensionPath = "/blocked/blocked.html" ∧
           rule.resourceTypes = ["main_frame"])) := by
  refine ⟨?_, ?_, ?_⟩
  · simp [shouldBlock, Bool.and_eq_true, Bool.or_eq_true, Bool.not_eq_true', and_assoc]
  · intro h
    simp [blockingRuleSet, h]
  · intro h
    refine ⟨?_, ?_⟩
    · simp [blockingRuleSet, h, enableBlockingRules, mapSitesFrom_length]
      omega
    · intro site hsite
      constructor
      · obtain ⟨j, hj⟩ := mapSitesFrom_mem subdomainRule site 0 cfg.blockedSites hsite
        refine ⟨subdomainRule j site, ?_, rfl, rfl, rfl⟩
        simp only [blockingRuleSet, h, if_true, enableBlockingRules, List.mem_append]
        exact Or.inl hj
      · obtain ⟨j, hj⟩ :=
          mapSitesFrom_mem (bareRule cfg.blockedSites.length) site 0 cfg.blockedSites hsite
        refine ⟨bareRule cfg.blockedSites.length j site, ?_, rfl, rfl, rfl⟩
        simp only [blockingRuleSet, h, if_true, enableBlockingRules, List.mem_append]
        exact Or.inr hj

/-- A running pomodoro snapshot used to instantiate the blocking policy. -/
def c2RunState : TimerState :=
  { mode := "pomodoro"
    timeRemaining := JSNum.num 1400
    isRunning := true
    startedAt := some 1000
    pausedAt := none }

/-- C2 witness: with blocking enabled, work-only blocking and two sites,
a running pomodoro blocks and installs four rules covering both patterns
of each site; a stopped snapshot does not block and installs nothing. -/
theorem blocking_decision_truth_table_witness :
    shouldBlock ⟨true, true, ["facebook.com", "x.com"]⟩ c2RunState = true ∧
    (blockingRuleSet ⟨true, true, ["facebook.com", "x.com"]⟩ c2RunState).length = 2 * 2 ∧
    (∃ rule ∈ blockingRuleSet ⟨true, true, ["facebook.com", "x.com"]⟩ c2RunState,
       rule.urlFilter = "*://*." ++ "facebook.com" ++ "/*" ∧
       rule.redirectExtensionPath = "/blocked/blocked.html" ∧
       rule.resourceTypes = ["main_frame"]) ∧
    shouldBlock ⟨true, true, ["facebook.com", "x.com"]⟩ initialTimerState = false ∧
    blockingRuleSet ⟨true, true, ["facebook.com", "x.com"]⟩ initialTimerState = [] := by
  have h := blocking_decision_truth_table ⟨true, true, ["facebook.com", "x.com"]⟩ c2RunState
  have h0 := blocking_decision_truth_table ⟨true, true, ["facebook.com", "x.com"]⟩
    initialTimerState
  have hb : shouldBlock ⟨true, true, ["facebook.com", "x.com"]⟩ c2RunState = true := by decide
  refine ⟨hb, (h.2.2 hb).1, ((h.2.2 hb).2 "facebook.com" (by decide)).1, by decide, ?_⟩
  exact h0.2.1 (by decide)

/-- C6: `resetTimer` emits exactly one (incomplete) SessionRecord iff the
snapshot is running with a recorded (truthy) start time, and the record
carries the mode's full nominal duration in minutes regardless of elapsed
time; the reset state is always stopped, back at the nominal countdown,
with both timestamps cleared. -/
theorem resetTimer_session_spec (s : TimerState) (now : Nat)
    (hvm : validMode s.mode = true) :
    (((resetTimer now s).2.filter isEmit).length
        = if s.isRunning && truthyOpt s.startedAt then 1 else 0) ∧
    (∀ a : Nat, s.isRunning = true → s.startedAt = some a → a ≠ 0 →
      (resetTimer now s).2.filter isEmit =
        [Effect.emitSession
          { session_type := s.mode
            duration_minutes := TIMER_CONFIG s.mode
            completed := false
            started_at := a
            ended_at := now }]) ∧
    (resetTimer now s).1.isRunning = false ∧
    (resetTimer now s).1.timeRemaining = JSNum.num (nominalSeconds s.mode) ∧
    (resetTimer now s).1.startedAt = none ∧
    (resetTimer now s).1.pausedAt = none ∧
    (s.mode = "pomodoro" → TIMER_CONFIG s.mode = some 25 ∧
      (resetTimer now s).1.timeRemaining = JSNum.num 1500) := by
  obtain ⟨hn, _⟩ := nominalJS_of_valid hvm
  refine ⟨?_, ?_, ?_, ?_, ?_, ?_, ?_⟩
  · by_cases hg : (s.isRunning && truthyOpt s.startedAt) = true <;>
      simp [resetTimer, hg, isEmit]
  · intro a h1 h2 h3
    simp [resetTimer, h1, h2, truthyOpt, h3, isEmit]
  · simp [resetTimer]
  · simp [resetTimer, hn]
  · simp [resetTimer]
  · simp [resetTimer]
  · intro hm
    refine ⟨by rw [hm]; rfl, ?_⟩
    rw [show (resetTimer now s).1.timeRemaining = nominalJS s.mode by simp [resetTimer], hm]
    rfl

/-- A running pomodoro ten ticks in, as in the spec's reset scenario. -/
def c6RunState : TimerState :=
  { mode := "pomodoro"
    timeRemaining := JSNum.num 1490
    isRunning := true
    startedAt := some 4000
    pausedAt := none }

/-- C6 witness: resetting the running pomodoro emits one incomplete
25-minute record and restores the stopped 1500-second snapshot. -/
theorem resetTimer_session_spec_witness :
    validMode c6RunState.mode = true ∧
    (resetTimer 14000 c6RunState).2.filter isEmit =
      [Effect.emitSession
        { session_type := "pomodoro", duration_minutes := some 25,
          completed := false, started_at := 4000, ended_at := 14000 }] ∧
    (resetTimer 14000 c6RunState).1.isRunning = false ∧
    (resetTimer 14000 c6RunState).1.timeRemaining = JSNum.num 1500 ∧
    (resetTimer 14000 c6RunState).1.startedAt = none := by
  have h := resetTimer_session_spec c6RunState 14000 (by decide)
  exact ⟨by decide, h.2.1 4000 rfl rfl (by decide), h.2.2.1,
    (h.2.2.2.2.2.2 rfl).2, h.2.2.2.2.1⟩

/-- C5: when a running countdown reaches 0 at a tick, the completion path
emits exactly one completed SessionRecord carrying the mode's nominal
duration, raises exactly one notification, stops the timer, auto-switches
pomodoro→shortBreak and any break→pomodoro, and leaves the countdown at
the new mode's full nominal duration (300 s after a pomodoro). -/
theorem tick_completion_spec (s : TimerState) (now : Nat)
    (hrun : s.isRunning = true) (hvm : validMode s.mode = true)
    (htr : s.timeRemaining = JSNum.num 1) :
    ((onAlarmTick now s).2.filter isEmit =
      [Effect.emitSession
        { session_type := s.mode
          duration_minutes := TIMER_CONFIG s.mode
          completed := true
          started_at := s.startedAt.getD 0
          ended_at := now }]) ∧
    ((onAlarmTick now s).2.filter isNotify).length = 1 ∧
    (onAlarmTick now s).1.isRunning = false ∧
    (onAlarmTick now s).1.mode =
      (if s.mode = "pomodoro" then "shortBreak" else "pomodoro") ∧
    (onAlarmTick now s).1.startedAt = none ∧
    (onAlarmTick now s).1.timeRemaining =
      JSNum.num (nominalSeconds (onAlarmTick now s).1.mode) ∧
    (s.mode = "pomodoro" →
      (onAlarmTick now s).1.mode = "shortBreak" ∧
      (onAlarmTick now s).1.timeRemaining = JSNum.num 300) := by
  have hstep : onAlarmTick now s =
      ((completeTimer now { s with timeRemaining := JSNum.num 0 }).1,
       (completeTimer now { s with timeRemaining := JSNum.num 0 }).2 ++
         [Effect.saveState]) := by
    simp [onAlarmTick, hrun, htr, JSNum.dec, JSNum.leZero]
  have hmode : (onAlarmTick now s).1.mode =
      (if s.mode = "pomodoro" then "shortBreak" else "pomodoro") := by
    rw [hstep, completeTimer_fst]
  have hnv := validMode_nextMode s.mode
  obtain ⟨hn, _⟩ := nominalJS_of_valid hnv
  refine ⟨?_, ?_, ?_, hmode, ?_, ?_, ?_⟩
  · rw [hstep, completeTimer_snd]
    simp [isEmit]
  · rw [hstep, completeTimer_snd]
    simp [isNotify]
  · rw [hstep, completeTimer_fst]
  · rw [hstep, completeTimer_fst]
  · rw [hmode, hstep, completeTimer_fst, hn]
  · intro hm
    refine ⟨by rw [hmode, if_pos hm], ?_⟩
    rw [hstep, completeTimer_fst, if_pos hm]
    rfl

/-- A running pomodoro at its final second. -/
def c5RunState : TimerState :=
  { mode := "pomodoro"
    timeRemaining := JSNum.num 1
    isRunning := true
    startedAt := some 4000
    pausedAt := none }

/-- C5 witness: the 1500th tick of a started pomodoro completes it —
one `{pomodoro, 25 min, completed}` record, one notification, stopped,
switched to a 300-second shortBreak. -/
theorem tick_completion_spec_witness :
    ((onAlarmTick 1504000 c5RunState).2.filter isEmit =
      [Effect.emitSession
        { session_type := "pomodoro", duration_minutes := some 25,
          completed := true, started_at := 4000, ended_at := 1504000 }]) ∧
    ((onAlarmTick 1504000 c5RunState).2.filter isNotify).length = 1 ∧
    (onAlarmTick 1504000 c5RunState).1.isRunning = false ∧
    (onAlarmTick 1504000 c5RunState).1.mode = "shortBreak" ∧
    (onAlarmTick 1504000 c5RunState).1.timeRemaining = JSNum.num 300 := by
  have h := tick_completion_spec c5RunState 1504000 rfl (by decide) rfl
  exact ⟨h.1, h.2.1, h.2.2.1, (h.2.2.2.2.2.2 rfl).1, (h.2.2.2.2.2.2 rfl).2⟩

/-- C1: on reactivation with a running snapshot and a recorded start,
reconciliation recomputes the countdown as
`max(0, nominal − floor((now − startedAt)/1000))` — never negative; a zero
result invokes completion (no alarm is re-created, one session record is
emitted) while a positive result resumes ticking from the reconciled
value; a pomodoro read back 2000 s after its start reconciles to 0. -/
theorem reconcile_on_reactivation_spec (s : TimerState) (a now : Nat)
    (hrun : s.isRunning = true) (hst : s.startedAt = some a) (ha : a ≠ 0)
    (hvm : validMode s.mode = true) :
    ∃ v : Int,
      reconcileRemaining now s = JSNum.num v ∧
      v = max 0 (nominalSeconds s.mode - ((now : Int) - (a : Int)).fdiv 1000) ∧
      0 ≤ v ∧
      (0 < v →
        onInstalledResume now s =
          ({ s with timeRemaining := JSNum.num v }, [Effect.alarmCreate])) ∧
      (v = 0 →
        onInstalledResume now s =
          completeTimer now { s with timeRemaining := JSNum.num 0 } ∧
        Effect.alarmCreate ∉ (onInstalledResume now s).2 ∧
        ((onInstalledResume now s).2.filter isEmit).length = 1) ∧
      (s.mode = "pomodoro" → now = a + 2000000 → v = 0) := by
  obtain ⟨hn, _⟩ := nominalJS_of_valid hvm
  have hrec : reconcileRemaining now s =
      JSNum.num (max 0 (nominalSeconds s.mode - ((now : Int) - (a : Int)).fdiv 1000)) := by
    simp [reconcileRemaining, hst, hn, JSNum.sub, JSNum.maxZero]
  refine ⟨max 0 (nominalSeconds s.mode - ((now : Int) - (a : Int)).fdiv 1000),
    hrec, rfl, le_max_left _ _, ?_, ?_, ?_⟩
  · intro hpos
    simp [onInstalledResume, hrun, hst, truthyOpt, ha, resumeTimer, hrec, JSNum.gtZero, hpos]
  · intro hz
    have hres : onInstalledResume now s =
        completeTimer now { s with timeRemaining := JSNum.num 0 } := by
      simp only [onInstalledResume, hrun, hst, truthyOpt, ha, resumeTimer, hrec, hz]
      norm_num [JSNum.gtZero]
      exact fun h => absurd h ha
    refine ⟨hres, ?_, ?_⟩
    · rw [hres, completeTimer_snd]
      simp
    · rw [hres, completeTimer_snd]
      simp [isEmit]
  · intro hm hnow
    subst hnow
    have he : (((a + 2000000 : Nat) : Int) - (a : Int)).fdiv 1000 = 2000 := by
      have : (((a + 2000000 : Nat) : Int) - (a : Int)) = 2000000 := by push_cast; ring
      rw [this]
      decide
    rw [he, hm]
    decide

/-- C1 witness: a running pomodoro persisted with `startedAt = 3000` ms,
reconciled 2000 s later, comes back as 0 and completes instead of
resuming. -/
theorem reconcile_on_reactivation_spec_witness :
    c2RunState.isRunning = true ∧
    validMode c2RunState.mode = true ∧
    ∃ v : Int,
      reconcileRemaining (1000 + 2000000) c2RunState = JSNum.num v ∧
      v = max 0 (nominalSeconds c2RunState.mode -
        (((1000 + 2000000 : Nat) : Int) - ((1000 : Nat) : Int)).fdiv 1000) ∧
      0 ≤ v ∧
      (0 < v →
        onInstalledResume (1000 + 2000000) c2RunState =
          ({ c2RunState with timeRemaining := JSNum.num v }, [Effect.alarmCreate])) ∧
      (v = 0 →
        onInstalledResume (1000 + 2000000) c2RunState =
          completeTimer (1000 + 2000000) { c2RunState with timeRemaining := JSNum.num 0 } ∧
        Effect.alarmCreate ∉ (onInstalledResume (1000 + 2000000) c2RunState).2 ∧
        ((onInstalledResume (1000 + 2000000) c2RunState).2.filter isEmit).length = 1) ∧
      (c2RunState.mode = "pomodoro" → 1000 + 2000000 = 1000 + 2000000 → v = 0) := by
  refine ⟨rfl, by decide, ?_⟩
  exact reconcile_on_reactivation_spec c2RunState 1000 (1000 + 2000000) rfl rfl
    (by decide) (by decide)

/-- Starting always leaves the snapshot running. -/
theorem startTimer_isRunning (now : Nat) (s : TimerState) :
    (startTimer now s).1.isRunning = true := by
  by_cases h : s.isRunning <;> simp [startTimer, h]

/-- C8: Start-while-running, Pause-while-stopped and
SwitchMode-while-running answer the unchanged snapshot with no error and
no effects; a recognized action never answers an error; an unknown action
answers `{error: "Unknown action"}` with no mutation and no effects; hence
a second consecutive START_TIMER leaves the snapshot unchanged. -/
theorem message_error_policy (s : TimerState) (req : Request) (m : String)
    (now now2 : Nat) :
    (s.isRunning = true →
      handleMessage now { action := "START_TIMER", mode := m } s =
        (Response.state s, s, [])) ∧
    (s.isRunning = false →
      handleMessage now { action := "PAUSE_TIMER", mode := m } s =
        (Response.state s, s, [])) ∧
    (s.isRunning = true →
      handleMessage now { action := "SWITCH_MODE", mode := m } s =
        (Response.state s, s, [])) ∧
    (req.action ∉ knownActions →
      handleMessage now req s = (Response.error "Unknown action", s, [])) ∧
    (req.action ∈ knownActions →
      ∀ e, (handleMessage now req s).1 ≠ Response.error e) ∧
    (handleMessage now2 { action := "START_TIMER", mode := m }
        (handleMessage now { action := "START_TIMER", mode := m } s).2.1 =
      (Response.state (handleMessage now { action := "START_TIMER", mode := m } s).2.1,
       (handleMessage now { action := "START_TIMER", mode := m } s).2.1, [])) := by
  have hgen : ∀ (n : Nat) (X : TimerState), X.isRunning = true →
      handleMessage n { action := "START_TIMER", mode := m } X =
        (Response.state X, X, []) := by
    intro n X hX
    simp [handleMessage, startTimer, hX]
  refine ⟨hgen now s, ?_, ?_, ?_, ?_, ?_⟩
  · intro h
    simp [handleMessage, pauseTimer, h]
  · intro h
    simp [handleMessage, switchMode, h]
  · intro h
    simp only [knownActions, List.mem_cons, List.mem_singleton, not_or] at h
    obtain ⟨h1, h2, h3, h4, h5, _⟩ := h
    simp [handleMessage, h1, h2, h3, h4, h5]
  · intro h e
    simp only [knownActions, List.mem_cons, List.mem_singleton] at h
    rcases h with h | h | h | h | h | h
    · simp [handleMessage, h]
    · simp [handleMessage, h]
    · simp [handleMessage, h]
    · simp [handleMessage, h]
    · simp [handleMessage, h]
    · cases h
  · have hpost : (handleMessage now { action := "START_TIMER", mode := m } s).2.1 =
        (startTimer now s).1 := by
      simp [handleMessage]
    rw [hpost]
    exact hgen now2 _ (startTimer_isRunning now s)

/-- C8 witness: concrete no-op, error and double-start instances. -/
theorem message_error_policy_witness :
    handleMessage 1 { action := "START_TIMER", mode := "x" } c2RunState =
      (Response.state c2RunState, c2RunState, []) ∧
    handleMessage 1 { action := "PAUSE_TIMER", mode := "x" } initialTimerState =
      (Response.state initialTimerState, initialTimerState, []) ∧
    handleMessage 1 { action := "SWITCH_MODE", mode := "shortBreak" } c2RunState =
      (Response.state c2RunState, c2RunState, []) ∧
    ({ action := "FOO", mode := "x" } : Request).action ∉ knownActions ∧
    handleMessage 1 { action := "FOO", mode := "x" } initialTimerState =
      (Response.error "Unknown action", initialTimerState, []) ∧
    (handleMessage 9 { action := "START_TIMER", mode := "x" }
        (handleMessage 1 { action := "START_TIMER", mode := "x" } initialTimerState).2.1 =
      (Response.state
        (handleMessage 1 { action := "START_TIMER", mode := "x" } initialTimerState).2.1,
       (handleMessage 1 { action := "START_TIMER", mode := "x" } initialTimerState).2.1,
       [])) := by
  have hrun := message_error_policy c2RunState { action := "FOO", mode := "x" } "x" 1 9
  have hstop := message_error_policy initialTimerState { action := "FOO", mode := "x" } "x" 1 9
  have hsw := message_error_policy c2RunState { action := "SWITCH_MODE", mode := "shortBreak" }
    "shortBreak" 1 9
  exact ⟨hrun.1 rfl, hstop.2.1 rfl, hsw.2.2.1 rfl, by decide,
    hstop.2.2.2.1 (by decide), hstop.2.2.2.2.2⟩

/-- Controller invariant at wall-clock time `t`: the mode is recognized,
the countdown is an integer within `[0, nominal]`, and any recorded start
time lies in the past. -/
def TimerInv (t : Nat) (s : TimerState) : Prop :=
  validMode s.mode = true ∧
  (∃ r : Int, s.timeRemaining = JSNum.num r ∧ 0 ≤ r ∧ r ≤ nominalSeconds s.mode) ∧
  (∀ a : Nat, s.startedAt = some a → a ≤ t)

/-- The invariant is monotone in the time bound. -/
theorem TimerInv_mono {t t' : Nat} {s : TimerState} (h : TimerInv t s) (hle : t ≤ t') :
    TimerInv t' s :=
  ⟨h.1, h.2.1, fun a ha => le_trans (h.2.2 a ha) hle⟩

/-- The state produced by `completeTimer` satisfies the invariant. -/
theorem TimerInv_completeTimer (n : Nat) (s : TimerState) :
    TimerInv n (completeTimer n s).1 := by
  rw [completeTimer_fst]
  have hnv := validMode_nextMode s.mode
  obtain ⟨hn, hpos⟩ := nominalJS_of_valid hnv
  exact ⟨hnv, ⟨nominalSeconds (if s.mode = "pomodoro" then "shortBreak" else "pomodoro"),
    hn, le_of_lt hpos, le_refl _⟩, fun a ha => Option.noConfusion ha⟩

/-- Every in-alphabet command taken at a later wall-clock time preserves
the invariant. -/
theorem TimerInv_applyCmd (c : Cmd) (n t : Nat) (s : TimerState)
    (hI : TimerInv t s) (ht : t ≤ n) (hc : cmdOk c = true) :
    TimerInv n (applyCmd c n s).1 := by
  obtain ⟨hvm, ⟨r, htr, hr0, hrN⟩, hsa⟩ := hI
  have hIm : TimerInv n s := TimerInv_mono ⟨hvm, ⟨r, htr, hr0, hrN⟩, hsa⟩ ht
  cases c with
  | start =>
    by_cases h : s.isRunning
    · simpa [applyCmd, startTimer, h] using hIm
    · simp only [applyCmd, startTimer, if_neg h]
      exact ⟨hvm, ⟨r, htr, hr0, hrN⟩,
        fun a ha => le_of_eq (Option.some.inj ha).symm⟩
  | pause =>
    by_cases h : s.isRunning
    · simp only [applyCmd, pauseTimer, h, Bool.not_true, Bool.false_eq_true, if_false]
      exact ⟨hvm, ⟨r, htr, hr0, hrN⟩, fun a ha => le_trans (hsa a ha) ht⟩
    · simpa [applyCmd, pauseTimer, h] using hIm
  | reset =>
    obtain ⟨hn, hpos⟩ := nominalJS_of_valid hvm
    simp only [applyCmd, resetTimer]
    exact ⟨hvm, ⟨nominalSeconds s.mode, hn, le_of_lt hpos, le_refl _⟩,
      fun a ha => Option.noConfusion ha⟩
  | switchModeCmd m =>
    simp only [cmdOk] at hc
    by_cases h : s.isRunning
    · simpa [applyCmd, switchMode, h] using hIm
    · obtain ⟨hn, hpos⟩ := nominalJS_of_valid hc
      simp only [applyCmd, switchMode, if_neg h]
      exact ⟨hc, ⟨nominalSeconds m, hn, le_of_lt hpos, le_refl _⟩,
        fun a ha => Option.noConfusion ha⟩
  | getState => simpa [applyCmd] using hIm
  | tick =>
    by_cases h : s.isRunning
    · by_cases hz : r - 1 ≤ 0
      · have hstep : (applyCmd Cmd.tick n s).1 =
            (completeTimer n { s with timeRemaining := JSNum.num (r - 1) }).1 := by
          simp [applyCmd, onAlarmTick, h, htr, JSNum.dec, JSNum.leZero, hz]
        rw [hstep]
        exact TimerInv_completeTimer n _
      · have hstep : (applyCmd Cmd.tick n s).1 =
            { s with timeRemaining := JSNum.num (r - 1) } := by
          simp [applyCmd, onAlarmTick, h, htr, JSNum.dec, JSNum.leZero, hz]
        rw [hstep]
        refine ⟨hvm, ⟨r - 1, rfl, by omega, ?_⟩,
          fun a ha => le_trans (hsa a ha) ht⟩
        show r - 1 ≤ nominalSeconds s.mode
        omega
    · simpa [applyCmd, onAlarmTick, h] using hIm
  | reconcile =>
    by_cases h : s.isRunning
    · have ha0 : s.startedAt.getD 0 ≤ n := by
        cases hst : s.startedAt with
        | none => simp
        | some a => simpa using le_trans (hsa a hst) ht
      have he : 0 ≤ ((n : Int) - ((s.startedAt.getD 0 : Nat) : Int)).fdiv 1000 :=
        Int.fdiv_nonneg (by exact_mod_cast Int.sub_nonneg.mpr (Nat.cast_le.mpr ha0))
          (by norm_num)
      obtain ⟨hn, hpos⟩ := nominalJS_of_valid hvm
      have hrec : reconcileRemaining n s =
          JSNum.num (max 0 (nominalSeconds s.mode -
            ((n : Int) - ((s.startedAt.getD 0 : Nat) : Int)).fdiv 1000)) := by
        simp [reconcileRemaining, hn, JSNum.sub, JSNum.maxZero]
      by_cases hv : 0 < max 0 (nominalSeconds s.mode -
          ((n : Int) - ((s.startedAt.getD 0 : Nat) : Int)).fdiv 1000)
      · have hstep : (applyCmd Cmd.reconcile n s).1 =
            { s with timeRemaining := JSNum.num (max 0 (nominalSeconds s.mode -
              ((n : Int) - ((s.startedAt.getD 0 : Nat) : Int)).fdiv 1000)) } := by
          simp [applyCmd, resumeTimer, h, hrec, JSNum.gtZero, hv]
        rw [hstep]
        refine ⟨hvm, ⟨_, rfl, le_max_left _ _, ?_⟩,
          fun a ha => le_trans (hsa a ha) ht⟩
        exact max_le (le_of_lt hpos) (sub_le_self _ he)
      · have hstep : (applyCmd Cmd.reconcile n s).1 =
            (completeTimer n { s with timeRemaining := JSNum.num (max 0
              (nominalSeconds s.mode -
                ((n : Int) - ((s.startedAt.getD 0 : Nat) : Int)).fdiv 1000)) }).1 := by
          simp [applyCmd, resumeTimer, h, hrec, JSNum.gtZero, hv]
        rw [hstep]
        exact TimerInv_completeTimer n _
    · simpa [applyCmd, resumeTimer, h] using hIm

/-- The invariant holds along every wellformed trace. -/
theorem TimerInv_runCmds : ∀ (tr : List (Cmd × Nat)) (t : Nat) (s : TimerState),
    TimerInv t s → wfTrace t tr = true → ∃ t', TimerInv t' (runCmds s tr) := by
  intro tr
  induction tr with
  | nil =>
    intro t s hI _
    exact ⟨t, hI⟩
  | cons p rest ih =>
    intro t s hI hwf
    obtain ⟨c, n⟩ := p
    simp only [wfTrace, Bool.and_eq_true, decide_eq_true_eq] at hwf
    obtain ⟨⟨h1, h2⟩, h3⟩ := hwf
    exact ih n (applyCmd c n s).1 (TimerInv_applyCmd c n t s hI h1 h2) h3

/-- C7: along every wellformed trace of commands (mode arguments drawn
from the three recognized modes), ticks and reconciliations, starting
from the default snapshot, `timeRemainingSeconds` is an integer within
`[0, nominal(mode)]` — never negative and never above the current mode's
nominal duration. -/
theorem timeRemaining_bounds_invariant (tr : List (Cmd × Nat))
    (hwf : wfTrace 0 tr = true) :
    validMode (runCmds initialTimerState tr).mode = true ∧
    ∃ r : Int, (runCmds initialTimerState tr).timeRemaining = JSNum.num r ∧
      0 ≤ r ∧ r ≤ nominalSeconds (runCmds initialTimerState tr).mode := by
  have hI0 : TimerInv 0 initialTimerState := by
    refine ⟨by decide, ⟨1500, by decide, by decide, by decide⟩, ?_⟩
    intro a ha
    exact Option.noConfusion ha
  obtain ⟨t', hI⟩ := TimerInv_runCmds tr 0 initialTimerState hI0 hwf
  exact ⟨hI.1, hI.2.1⟩

/-- A sample wellformed trace: start, tick, pause, restart, reconcile,
then switch to a long break. -/
def c7Trace : List (Cmd × Nat) :=
  [(Cmd.start, 100), (Cmd.tick, 1100), (Cmd.pause, 2100), (Cmd.start, 3100),
   (Cmd.reconcile, 4100), (Cmd.switchModeCmd "longBreak", 5100)]

/-- C7 witness: the sample trace is wellformed and ends within bounds. -/
theorem timeRemaining_bounds_invariant_witness :
    wfTrace 0 c7Trace = true ∧
    (validMode (runCmds initialTimerState c7Trace).mode = true ∧
     ∃ r : Int, (runCmds initialTimerState c7Trace).timeRemaining = JSNum.num r ∧
       0 ≤ r ∧ r ≤ nominalSeconds (runCmds initialTimerState c7Trace).mode) :=
  ⟨by decide, timeRemaining_bounds_invariant c7Trace (by decide)⟩
